import Mathlib

/-!
Shallow embedding of `src/src/models/mod.rs` from the `recipe_api` repository:
the `Recipe` aggregate, its `RecipeBuilder`, and the value types `Difficulty`,
`Ingredient` and `RecipeTag`.

Modelling conventions:
* `Uuid` (the `uuid::Uuid` 128-bit identifier) is an opaque wrapper of `Nat`;
  no arithmetic is performed on it in the source.
* `u16` durations become `Nat` (no arithmetic is performed on them).
* `Vec<u8>` image bytes become `List Nat`.
* `HashSet<T>` becomes a `List T` together with the semantics of Rust's
  `HashSet::insert`: if an element equal (under the type's equality) to the
  inserted one is already present, the set is left unchanged and the ORIGINAL
  element is retained; otherwise the new element is added.
* A Rust panic (from `Option::expect`) is modelled by the explicit
  `BuildOutcome.panicked msg` constructor: it denotes an abort of the build
  with the given panic message, not an ordinary return value of the Rust
  function (whose declared return type is plain `Recipe`).
-/

namespace RecipeApi

/-- Opaque 128-bit identifier, standing for `uuid::Uuid`. -/
structure Uuid where
  val : Nat
deriving DecidableEq

/-- The `Difficulty` enum: a closed set of four levels (mod.rs lines 143-148). -/
inductive Difficulty where
  | Easy
  | Medium
  | Hard
  | Expert
deriving DecidableEq

/-- The `Ingredient` struct (mod.rs lines 151-156). -/
structure Ingredient where
  id : Uuid
  name : String
  unit : String
  measurement : String
deriving DecidableEq

/-- The `RecipeTag` struct, a wrapper of a `String` (mod.rs lines 159-161). -/
structure RecipeTag where
  tag : String
deriving DecidableEq

/-- Modelled from the spec: the `Eq`/`Hash` implementation of `Ingredient` is
not present in `src/` (only the struct declaration is), and the spec requires
the set/hash contract for `Ingredient` to be keyed on the identifier only:
two ingredients are the same set member exactly when their ids coincide. -/
def ingEq (a b : Ingredient) : Bool :=
  decide (a.id = b.id)

/-- Modelled from the spec: the `Eq`/`Hash` implementation of `RecipeTag` is
not present in `src/` (only the struct declaration is), and the spec requires
value equality on the wrapped text. -/
def tagEq (a b : RecipeTag) : Bool :=
  decide (a.tag = b.tag)

/-- Semantics of Rust's `HashSet::insert` over the list model: if the set
already contains an element equal to `x` (under `eq`), it is returned
unchanged (the original element is retained, `insert` returns `false` and
does not replace); otherwise `x` is added. -/
def hsInsert (eq : α → α → Bool) (s : List α) (x : α) : List α :=
  if s.any (fun y => eq y x) then s else s ++ [x]

/-- The `Recipe` struct (mod.rs lines 5-24): the finished immutable aggregate.
Every field is mandatory at the type level; `ingredients`, `tags` and `img`
hold possibly-empty collections. -/
structure Recipe where
  id : Uuid
  name : String
  difficulty : Difficulty
  duration : Nat
  description : String
  ingredients : List Ingredient
  directions : String
  tags : List RecipeTag
  img : List Nat
deriving DecidableEq

/-- The constructor `Recipe::new` (mod.rs lines 27-39): builds the aggregate
directly from all nine components. -/
def Recipe.new (id : Uuid) (name : String) (difficulty : Difficulty)
    (duration : Nat) (description : String) (ingredients : List Ingredient)
    (directions : String) (tags : List RecipeTag) (img : List Nat) : Recipe :=
  { id, name, difficulty, duration, description, ingredients, directions, tags, img }

/-- The `RecipeBuilder` struct (mod.rs lines 45-64): each mandatory scalar is
an `Option` (initially unset), the two collections are sets (modelled as
lists) and the image is an optional byte vector. -/
structure RecipeBuilder where
  id : Option Uuid
  name : Option String
  difficulty : Option Difficulty
  duration : Option Nat
  description : Option String
  ingredients : List Ingredient
  directions : Option String
  tags : List RecipeTag
  img : Option (List Nat)
deriving DecidableEq

/-- `RecipeBuilder::new` (mod.rs lines 67-79): the fresh builder with every
optional slot unset and both sets empty. -/
def RecipeBuilder.new : RecipeBuilder :=
  { id := none, name := none, difficulty := none, duration := none,
    description := none, ingredients := [], directions := none,
    tags := [], img := none }

/-- `Recipe::builder` (mod.rs lines 40-42). -/
def Recipe.builder : RecipeBuilder :=
  RecipeBuilder.new

/-- Setter `RecipeBuilder::id` (mod.rs lines 80-83); named `setId` here
because the Lean field projection already occupies `RecipeBuilder.id`. -/
def RecipeBuilder.setId (b : RecipeBuilder) (id : Uuid) : RecipeBuilder :=
  { b with id := some id }

/-- Setter `RecipeBuilder::name` (mod.rs lines 85-88); named `setName` here
because the Lean field projection already occupies `RecipeBuilder.name`. -/
def RecipeBuilder.setName (b : RecipeBuilder) (name : String) : RecipeBuilder :=
  { b with name := some name }

/-- Setter `RecipeBuilder::difficulty` (mod.rs lines 90-93); named
`setDifficulty` here because of the clash with the field projection. -/
def RecipeBuilder.setDifficulty (b : RecipeBuilder) (difficulty : Difficulty) : RecipeBuilder :=
  { b with difficulty := some difficulty }

/-- Setter `RecipeBuilder::duration` (mod.rs lines 95-98); named `setDuration`
here because of the clash with the field projection. -/
def RecipeBuilder.setDuration (b : RecipeBuilder) (duration : Nat) : RecipeBuilder :=
  { b with duration := some duration }

/-- Setter `RecipeBuilder::description` (mod.rs lines 100-103); named
`setDescription` here because of the clash with the field projection. -/
def RecipeBuilder.setDescription (b : RecipeBuilder) (description : String) : RecipeBuilder :=
  { b with description := some description }

/-- Setter `RecipeBuilder::directions` (mod.rs lines 105-108); named
`setDirections` here because of the clash with the field projection. -/
def RecipeBuilder.setDirections (b : RecipeBuilder) (directions : String) : RecipeBuilder :=
  { b with directions := some directions }

/-- `RecipeBuilder::ingredient` (mod.rs lines 110-113): inserts into the
ingredient set via `HashSet::insert` with id-keyed equality. -/
def RecipeBuilder.ingredient (b : RecipeBuilder) (i : Ingredient) : RecipeBuilder :=
  { b with ingredients := hsInsert ingEq b.ingredients i }

/-- `RecipeBuilder::tag` (mod.rs lines 115-118): inserts into the tag set via
`HashSet::insert` with text-keyed equality. -/
def RecipeBuilder.tag (b : RecipeBuilder) (t : RecipeTag) : RecipeBuilder :=
  { b with tags := hsInsert tagEq b.tags t }

/-- Setter `RecipeBuilder::img` (mod.rs lines 120-123); named `setImg` here
because of the clash with the field projection. -/
def RecipeBuilder.setImg (b : RecipeBuilder) (img : List Nat) : RecipeBuilder :=
  { b with img := some img }

/-- Outcome of `RecipeBuilder::build`. The Rust function is declared as
`fn build(mut self) -> Recipe`; a missing mandatory field makes one of its
`Option::expect` calls PANIC with the quoted message. `ok r` models a normal
return and `panicked msg` models that abort (it is not a `Result` value of
the Rust program). -/
inductive BuildOutcome where
  | ok : Recipe → BuildOutcome
  | panicked : String → BuildOutcome
deriving DecidableEq

/-- `RecipeBuilder::build` (mod.rs lines 125-137). The struct literal in the
source evaluates its fields in written order, so the `expect` calls run in
the order id, name, difficulty, duration, description, directions; the first
unset one panics with its message. When all six are set, `img` defaults to
the empty byte vector (`self.img.take().or(Some(Vec::new())).unwrap()`) and
the accumulated ingredient and tag sets are moved into the `Recipe`. -/
def RecipeBuilder.build (b : RecipeBuilder) : BuildOutcome :=
  match b.id, b.name, b.difficulty, b.duration, b.description, b.directions with
  | none, _, _, _, _, _ =>
      .panicked "cannot build `Recipe` struct without id set"
  | some _, none, _, _, _, _ =>
      .panicked "cannot build `Recipe` struct without name set"
  | some _, some _, none, _, _, _ =>
      .panicked "cannot build `Recipe` without difficulty set"
  | some _, some _, some _, none, _, _ =>
      .panicked "cannot build `Recipe` without duration set"
  | some _, some _, some _, some _, none, _ =>
      .panicked "cannot build `Recipe` without description set"
  | some _, some _, some _, some _, some _, none =>
      .panicked "cannot build `Recipe` without directions set"
  | some i, some n, some d, some du, some de, some dir =>
      .ok { id := i, name := n, difficulty := d, duration := du,
            description := de, ingredients := b.ingredients,
            directions := dir, tags := b.tags, img := b.img.getD [] }

/-- The six mandatory scalar fields of a recipe, in the fixed order in which
`build` checks them. -/
inductive MandatoryField where
  | id
  | name
  | difficulty
  | duration
  | description
  | directions
deriving DecidableEq

/-- The panic message of the `expect` call guarding each mandatory field in
`RecipeBuilder::build` (mod.rs lines 127-132). -/
def expectMsg : MandatoryField → String
  | .id => "cannot build `Recipe` struct without id set"
  | .name => "cannot build `Recipe` struct without name set"
  | .difficulty => "cannot build `Recipe` without difficulty set"
  | .duration => "cannot build `Recipe` without duration set"
  | .description => "cannot build `Recipe` without description set"
  | .directions => "cannot build `Recipe` without directions set"

/-- Whether all six mandatory scalar fields of the builder are set. -/
def mandatorySet (b : RecipeBuilder) : Bool :=
  b.id.isSome && b.name.isSome && b.difficulty.isSome &&
  b.duration.isSome && b.description.isSome && b.directions.isSome

/-- The mandatory fields currently unset on the builder, listed in the fixed
check order id, name, difficulty, duration, description, directions. -/
def missingFields (b : RecipeBuilder) : List MandatoryField :=
  (if b.id.isSome then [] else [.id]) ++
  (if b.name.isSome then [] else [.name]) ++
  (if b.difficulty.isSome then [] else [.difficulty]) ++
  (if b.duration.isSome then [] else [.duration]) ++
  (if b.description.isSome then [] else [.description]) ++
  (if b.directions.isSome then [] else [.directions])

/-- The first unset mandatory field in the fixed check order, if any. -/
def firstMissing (b : RecipeBuilder) : Option MandatoryField :=
  (missingFields b).head?

/-- A concrete builder with all six mandatory fields set and nothing else,
used to instantiate universally quantified theorems at a concrete input. -/
def sampleBuilder : RecipeBuilder :=
  (((((RecipeBuilder.new.setId ⟨1⟩).setName "Pancakes").setDifficulty
    .Easy).setDuration 15).setDescription "Fluffy pancakes").setDirections "Mix and fry."

/-- Helper: a builder with all six mandatory fields set builds successfully,
moving the accumulated sets and defaulting the image to the empty byte list. -/
theorem build_complete (b : RecipeBuilder) (i : Uuid) (n : String)
    (d : Difficulty) (du : Nat) (de dir : String)
    (hi : b.id = some i) (hn : b.name = some n) (hd : b.difficulty = some d)
    (hdu : b.duration = some du) (hde : b.description = some de)
    (hdir : b.directions = some dir) :
    b.build =
      .ok { id := i, name := n, difficulty := d, duration := du,
            description := de, ingredients := b.ingredients, directions := dir,
            tags := b.tags, img := b.img.getD [] } := by
  simp [RecipeBuilder.build, hi, hn, hd, hdu, hde, hdir]

/-- Helper: extracting the six set values from a builder whose mandatory
fields are all set. -/
theorem mandatory_exists (b : RecipeBuilder) (h : mandatorySet b = true) :
    ∃ i n d du de dir, b.id = some i ∧ b.name = some n ∧
      b.difficulty = some d ∧ b.duration = some du ∧
      b.description = some de ∧ b.directions = some dir := by
  simp only [mandatorySet, Bool.and_eq_true, Option.isSome_iff_exists] at h
  obtain ⟨⟨⟨⟨⟨⟨i, hi⟩, n, hn⟩, d, hd⟩, du, hdu⟩, de, hde⟩, dir, hdir⟩ := h
  exact ⟨i, n, d, du, de, dir, hi, hn, hd, hdu, hde, hdir⟩

/-- C1 counterexample: on the fresh builder the id field is unset and `build`
ABORTS with the id panic message — the outcome is the `panicked` constructor
(modelling the Rust `expect` panic), not a returned failure value. -/
theorem claim_C1_counterexample :
    RecipeBuilder.new.id = none ∧
    RecipeBuilder.new.build =
      BuildOutcome.panicked "cannot build `Recipe` struct without id set" :=
  ⟨rfl, rfl⟩

/-- C1 (amended): for every builder state with some mandatory field unset,
`build` aborts by panicking — through the `expect` call whose message names
the first unset mandatory field in the check order — rather than returning a
tagged failure value. -/
theorem claim_C1_amended (b : RecipeBuilder) (h : mandatorySet b = false) :
    ∃ f, firstMissing b = some f ∧ b.build = .panicked (expectMsg f) := by
  obtain ⟨i, n, d, du, de, ing, dir, tg, im⟩ := b
  cases i <;> cases n <;> cases d <;> cases du <;> cases de <;> cases dir <;>
    simp_all [RecipeBuilder.build, mandatorySet, firstMissing, missingFields,
      expectMsg]

/-- Witness for C1 (amended) at the fresh builder. -/
theorem claim_C1_amended_witness :
    mandatorySet RecipeBuilder.new = false ∧
    ∃ f, firstMissing RecipeBuilder.new = some f ∧
      RecipeBuilder.new.build = .panicked (expectMsg f) :=
  ⟨by decide, claim_C1_amended RecipeBuilder.new (by decide)⟩

/-- C2: finalization succeeds (returns an `ok` recipe) if and only if all six
mandatory fields are set, and under that precondition the failure (panic)
branch is unreachable. -/
theorem claim_C2 (b : RecipeBuilder) :
    ((∃ r, b.build = .ok r) ↔ mandatorySet b = true) ∧
    (mandatorySet b = true → ∀ m, b.build ≠ .panicked m) := by
  obtain ⟨i, n, d, du, de, ing, dir, tg, im⟩ := b
  cases i <;> cases n <;> cases d <;> cases du <;> cases de <;> cases dir <;>
    simp_all [RecipeBuilder.build, mandatorySet]

/-- Witness for C2 at a concrete complete builder. -/
theorem claim_C2_witness :
    mandatorySet sampleBuilder = true ∧
    sampleBuilder.build ≠ .panicked "cannot build `Recipe` struct without id set" :=
  ⟨by decide, (claim_C2 sampleBuilder).2 (by decide) _⟩

/-- C3: every `Recipe` value coincides with the result of a successful
finalization: for any recipe there is a builder, with all mandatory fields
set, whose `build` returns exactly that recipe. Since the `Recipe` type has
no optional fields, no partially-valid recipe is representable, and any
recipe observable by a collaborator — whether produced by `build` or by the
public `Recipe::new` — is the value of a successful, completeness-validated
build. -/
theorem claim_C3 (r : Recipe) :
    ∃ b : RecipeBuilder, mandatorySet b = true ∧ b.build = .ok r :=
  ⟨{ id := some r.id, name := some r.name, difficulty := some r.difficulty,
     duration := some r.duration, description := some r.description,
     ingredients := r.ingredients, directions := some r.directions,
     tags := r.tags, img := some r.img }, rfl, rfl⟩

/-- C4: whenever at least two mandatory fields are unset, `build` fails
reporting exactly the first unset field in the fixed check order id, name,
difficulty, duration, description, directions (via that field's panic
message), and no other field is ever the one reported. Determinism over
repeated finalizations of the same state is immediate since `build` is a
function of the builder state. -/
theorem claim_C4 (b : RecipeBuilder) (f : MandatoryField)
    (h2 : 2 ≤ (missingFields b).length) (hf : firstMissing b = some f) :
    b.build = .panicked (expectMsg f) ∧
    ∀ m, b.build = .panicked m → m = expectMsg f := by
  obtain ⟨i, n, d, du, de, ing, dir, tg, im⟩ := b
  cases i <;> cases n <;> cases d <;> cases du <;> cases de <;> cases dir <;>
    simp_all [RecipeBuilder.build, firstMissing, missingFields, expectMsg] <;>
    subst hf <;> rfl

/-- Witness for C4 at the fresh builder, which misses all six fields. -/
theorem claim_C4_witness :
    2 ≤ (missingFields RecipeBuilder.new).length ∧
    firstMissing RecipeBuilder.new = some .id ∧
    RecipeBuilder.new.build = .panicked (expectMsg .id) :=
  ⟨by decide, by decide,
    (claim_C4 RecipeBuilder.new .id (by decide) (by decide)).1⟩

/-- C5: a builder with all mandatory fields set, no ingredient added, no tag
added and no image set builds successfully into a recipe with empty
ingredient set, empty tag set and empty image bytes. -/
theorem claim_C5 (b : RecipeBuilder) (h : mandatorySet b = true)
    (hing : b.ingredients = []) (htag : b.tags = []) (himg : b.img = none) :
    ∃ r, b.build = .ok r ∧ r.ingredients = [] ∧ r.tags = [] ∧ r.img = [] := by
  obtain ⟨i, n, d, du, de, ing, dir, tg, im⟩ := b
  cases i <;> cases n <;> cases d <;> cases du <;> cases de <;> cases dir <;>
    simp_all [RecipeBuilder.build, mandatorySet]

/-- Witness for C5 at a concrete complete builder with empty collections. -/
theorem claim_C5_witness :
    mandatorySet sampleBuilder = true ∧ sampleBuilder.ingredients = [] ∧
    sampleBuilder.tags = [] ∧ sampleBuilder.img = none ∧
    ∃ r, sampleBuilder.build = .ok r ∧ r.ingredients = [] ∧ r.tags = [] ∧
      r.img = [] :=
  ⟨by decide, rfl, rfl, rfl, claim_C5 sampleBuilder (by decide) rfl rfl rfl⟩

/-- A concrete ingredient used to instantiate the dedup theorems. -/
def ingA : Ingredient :=
  { id := ⟨7⟩, name := "flour", unit := "cup", measurement := "1" }

/-- A concrete ingredient sharing `ingA`'s identifier but with different
name, unit and measurement text. -/
def ingB : Ingredient :=
  { id := ⟨7⟩, name := "sugar", unit := "tbsp", measurement := "2" }

/-- C6 counterexample: with the set keyed on the identifier, adding `ingA`
then `ingB` (same id, different text) and finalizing yields a recipe whose
single entry for that identifier is `ingA` — the FIRST one added, because
`HashSet::insert` keeps the existing element — not the last one added as the
claim states. -/
theorem claim_C6_counterexample :
    ingA.id = ingB.id ∧ ingA ≠ ingB ∧
    ((sampleBuilder.ingredient ingA).ingredient ingB).build =
      .ok { id := ⟨1⟩, name := "Pancakes", difficulty := .Easy,
            duration := 15, description := "Fluffy pancakes",
            ingredients := [ingA], directions := "Mix and fry.",
            tags := [], img := [] } := by
  refine ⟨rfl, by decide, ?_⟩
  rfl

/-- C6 (amended): adding two ingredients with the same identifier (in either
order of the two text variants) to a builder whose set does not yet contain
that identifier, with all mandatory fields set, yields a recipe whose
ingredient set contains exactly one entry for that identifier, namely the
FIRST one added; the second insertion is a no-op because `HashSet::insert`
retains the existing element. -/
theorem claim_C6_amended (b : RecipeBuilder) (i j : Ingredient)
    (hij : i.id = j.id)
    (hnew : b.ingredients.any (fun x => ingEq x i) = false)
    (h : mandatorySet b = true) :
    ∃ r, ((b.ingredient i).ingredient j).build = .ok r ∧
      r.ingredients.filter (fun x => ingEq x i) = [i] := by
  have hiEqj : ingEq i j = true := by simp [ingEq, hij]
  have hiEqi : ingEq i i = true := by simp [ingEq]
  have h1 : (b.ingredient i).ingredients = b.ingredients ++ [i] := by
    simp [RecipeBuilder.ingredient, hsInsert, hnew]
  have hany : ((b.ingredients ++ [i]).any fun y => ingEq y j) = true := by
    rw [List.any_append]
    have hone : ([i].any fun y => ingEq y j) = true := by simp [hiEqj]
    rw [hone, Bool.or_true]
  have h2 : ((b.ingredient i).ingredient j).ingredients = b.ingredients ++ [i] := by
    show hsInsert ingEq (b.ingredient i).ingredients j = b.ingredients ++ [i]
    rw [h1]
    simp only [hsInsert, hany, if_true]
  obtain ⟨iv, n, d, du, de, dir, hi, hn, hd, hdu, hde, hdir⟩ :=
    mandatory_exists b h
  refine ⟨_, build_complete ((b.ingredient i).ingredient j) iv n d du de dir
    hi hn hd hdu hde hdir, ?_⟩
  simp only [h2, List.filter_append]
  have hfilter : b.ingredients.filter (fun x => ingEq x i) = [] := by
    simp only [List.filter_eq_nil_iff]
    intro a ha
    have := List.any_eq_false.mp hnew a ha
    simpa using this
  simp [hfilter, hiEqi]

/-- Witness for C6 (amended) at a concrete builder and ingredient pair. -/
theorem claim_C6_amended_witness :
    ingA.id = ingB.id ∧
    sampleBuilder.ingredients.any (fun x => ingEq x ingA) = false ∧
    mandatorySet sampleBuilder = true ∧
    ∃ r, ((sampleBuilder.ingredient ingA).ingredient ingB).build = .ok r ∧
      r.ingredients.filter (fun x => ingEq x ingA) = [ingA] :=
  ⟨rfl, rfl, by decide,
    claim_C6_amended sampleBuilder ingA ingB rfl rfl (by decide)⟩

/-- C7: adding a tag whose text is already present in the tag set is a no-op
on the builder, and adding two tags with the same text to the fresh builder
leaves a tag set of size one. -/
theorem claim_C7 (b : RecipeBuilder) (t t' : RecipeTag) (h : t.tag = t'.tag) :
    (b.tag t).tag t' = b.tag t ∧
    ((RecipeBuilder.new.tag t).tag t').tags.length = 1 := by
  have htt : tagEq t t' = true := by simp [tagEq, h]
  constructor
  · cases hb : b.tags.any (fun y => tagEq y t) with
    | true =>
        have hb' : b.tags.any (fun y => tagEq y t') = true := by
          rw [List.any_eq_true] at hb ⊢
          obtain ⟨y, hy, hyy⟩ := hb
          refine ⟨y, hy, ?_⟩
          simp only [tagEq] at hyy ⊢
          simp only [decide_eq_true_eq] at hyy ⊢
          rw [hyy, h]
        simp [RecipeBuilder.tag, hsInsert, hb, hb']
    | false =>
        simp [RecipeBuilder.tag, hsInsert, hb, List.any_append, htt]
  · simp [RecipeBuilder.tag, RecipeBuilder.new, hsInsert, htt]

/-- Witness for C7 at the fresh builder and a concrete tag text. -/
theorem claim_C7_witness :
    ((RecipeBuilder.new.tag ⟨"vegan"⟩).tag ⟨"vegan"⟩).tags.length = 1 :=
  (claim_C7 RecipeBuilder.new ⟨"vegan"⟩ ⟨"vegan"⟩ rfl).2

/-- C8: every scalar setter (id, name, difficulty, duration, description,
directions, img) overwrites any previously set value — setting twice equals
setting once with the second value — and in particular setting the name to
"A" then to "B" on a builder with the mandatory fields set finalizes into a
recipe whose name is the second value. -/
theorem claim_C8 (b : RecipeBuilder) (u₁ u₂ : Uuid) (s₁ s₂ : String)
    (d₁ d₂ : Difficulty) (n₁ n₂ : Nat) (e₁ e₂ dr₁ dr₂ : String)
    (m₁ m₂ : List Nat) :
    (b.setId u₁).setId u₂ = b.setId u₂ ∧
    (b.setName s₁).setName s₂ = b.setName s₂ ∧
    (b.setDifficulty d₁).setDifficulty d₂ = b.setDifficulty d₂ ∧
    (b.setDuration n₁).setDuration n₂ = b.setDuration n₂ ∧
    (b.setDescription e₁).setDescription e₂ = b.setDescription e₂ ∧
    (b.setDirections dr₁).setDirections dr₂ = b.setDirections dr₂ ∧
    (b.setImg m₁).setImg m₂ = b.setImg m₂ ∧
    (mandatorySet b = true →
      ∃ r, ((b.setName s₁).setName s₂).build = .ok r ∧ r.name = s₂) := by
  refine ⟨rfl, rfl, rfl, rfl, rfl, rfl, rfl, ?_⟩
  intro h
  obtain ⟨i, n, d, du, de, dir, hi, hn, hd, hdu, hde, hdir⟩ :=
    mandatory_exists b h
  exact ⟨_, build_complete ((b.setName s₁).setName s₂) i s₂ d du de dir
    hi rfl hd hdu hde hdir, rfl⟩

/-- Witness for C8 at a concrete builder, name strings "A" and "B". -/
theorem claim_C8_witness :
    mandatorySet sampleBuilder = true ∧
    ∃ r, ((sampleBuilder.setName "A").setName "B").build = .ok r ∧
      r.name = "B" :=
  ⟨by decide,
    (claim_C8 sampleBuilder ⟨0⟩ ⟨0⟩ "A" "B" .Easy .Easy 0 0 "" "" "" ""
      [] []).2.2.2.2.2.2.2 (by decide)⟩

/-- The operations a caller can invoke on a builder: the nine accumulating
operations (seven scalar setters and two collection inserts) and the
finalization `build`. -/
inductive BuilderOp where
  | opId (u : Uuid)
  | opName (s : String)
  | opDifficulty (d : Difficulty)
  | opDuration (n : Nat)
  | opDescription (s : String)
  | opDirections (s : String)
  | opIngredient (i : Ingredient)
  | opTag (t : RecipeTag)
  | opImg (bs : List Nat)
  | opBuild
deriving DecidableEq

/-- Result of one builder operation: an updated builder, a finished recipe,
or a panic (only `build` has a panicking branch in the source). -/
inductive StepResult where
  | next : RecipeBuilder → StepResult
  | done : Recipe → StepResult
  | panicked : String → StepResult
deriving DecidableEq

/-- Uniform application of a builder operation, mirroring the corresponding
source method (mod.rs lines 80-137). -/
def RecipeBuilder.applyOp (b : RecipeBuilder) : BuilderOp → StepResult
  | .opId u => .next (b.setId u)
  | .opName s => .next (b.setName s)
  | .opDifficulty d => .next (b.setDifficulty d)
  | .opDuration n => .next (b.setDuration n)
  | .opDescription s => .next (b.setDescription s)
  | .opDirections s => .next (b.setDirections s)
  | .opIngredient i => .next (b.ingredient i)
  | .opTag t => .next (b.tag t)
  | .opImg bs => .next (b.setImg bs)
  | .opBuild =>
      match b.build with
      | .ok r => .done r
      | .panicked m => .panicked m

/-- C9: every field-setting and collection-add operation is total: applied to
any builder state and any input it yields an updated builder, never a panic
or failure — the panicking branch of `applyOp` is reachable only through
`build`. -/
theorem claim_C9 (b : RecipeBuilder) (op : BuilderOp) (h : op ≠ .opBuild) :
    ∃ b', b.applyOp op = .next b' := by
  cases op
  case opBuild => exact absurd rfl h
  all_goals exact ⟨_, rfl⟩

/-- Witness for C9 at the fresh builder and a concrete setter operation. -/
theorem claim_C9_witness :
    BuilderOp.opDuration 5 ≠ BuilderOp.opBuild ∧
    ∃ b', RecipeBuilder.new.applyOp (.opDuration 5) = .next b' :=
  ⟨by decide, claim_C9 RecipeBuilder.new (.opDuration 5) (by decide)⟩

/-- C10: frame property of the nine accumulating operations: each scalar
setter and each collection insert leaves every builder field other than its
own target exactly unchanged. -/
theorem claim_C10 (b : RecipeBuilder) (u : Uuid) (s : String)
    (d : Difficulty) (n : Nat) (e dr : String) (i : Ingredient)
    (t : RecipeTag) (m : List Nat) :
    ((b.setId u).name = b.name ∧ (b.setId u).difficulty = b.difficulty ∧
     (b.setId u).duration = b.duration ∧
     (b.setId u).description = b.description ∧
     (b.setId u).ingredients = b.ingredients ∧
     (b.setId u).directions = b.directions ∧
     (b.setId u).tags = b.tags ∧ (b.setId u).img = b.img) ∧
    ((b.setName s).id = b.id ∧ (b.setName s).difficulty = b.difficulty ∧
     (b.setName s).duration = b.duration ∧
     (b.setName s).description = b.description ∧
     (b.setName s).ingredients = b.ingredients ∧
     (b.setName s).directions = b.directions ∧
     (b.setName s).tags = b.tags ∧ (b.setName s).img = b.img) ∧
    ((b.setDifficulty d).id = b.id ∧ (b.setDifficulty d).name = b.name ∧
     (b.setDifficulty d).duration = b.duration ∧
     (b.setDifficulty d).description = b.description ∧
     (b.setDifficulty d).ingredients = b.ingredients ∧
     (b.setDifficulty d).directions = b.directions ∧
     (b.setDifficulty d).tags = b.tags ∧ (b.setDifficulty d).img = b.img) ∧
    ((b.setDuration n).id = b.id ∧ (b.setDuration n).name = b.name ∧
     (b.setDuration n).difficulty = b.difficulty ∧
     (b.setDuration n).description = b.description ∧
     (b.setDuration n).ingredients = b.ingredients ∧
     (b.setDuration n).directions = b.directions ∧
     (b.setDuration n).tags = b.tags ∧ (b.setDuration n).img = b.img) ∧
    ((b.setDescription e).id = b.id ∧ (b.setDescription e).name = b.name ∧
     (b.setDescription e).difficulty = b.difficulty ∧
     (b.setDescription e).duration = b.duration ∧
     (b.setDescription e).ingredients = b.ingredients ∧
     (b.setDescription e).directions = b.directions ∧
     (b.setDescription e).tags = b.tags ∧ (b.setDescription e).img = b.img) ∧
    ((b.setDirections dr).id = b.id ∧ (b.setDirections dr).name = b.name ∧
     (b.setDirections dr).difficulty = b.difficulty ∧
     (b.setDirections dr).duration = b.duration ∧
     (b.setDirections dr).description = b.description ∧
     (b.setDirections dr).ingredients = b.ingredients ∧
     (b.setDirections dr).tags = b.tags ∧ (b.setDirections dr).img = b.img) ∧
    ((b.ingredient i).id = b.id ∧ (b.ingredient i).name = b.name ∧
     (b.ingredient i).difficulty = b.difficulty ∧
     (b.ingredient i).duration = b.duration ∧
     (b.ingredient i).description = b.description ∧
     (b.ingredient i).directions = b.directions ∧
     (b.ingredient i).tags = b.tags ∧ (b.ingredient i).img = b.img) ∧
    ((b.tag t).id = b.id ∧ (b.tag t).name = b.name ∧
     (b.tag t).difficulty = b.difficulty ∧
     (b.tag t).duration = b.duration ∧
     (b.tag t).description = b.description ∧
     (b.tag t).ingredients = b.ingredients ∧
     (b.tag t).directions = b.directions ∧ (b.tag t).img = b.img) ∧
    ((b.setImg m).id = b.id ∧ (b.setImg m).name = b.name ∧
     (b.setImg m).difficulty = b.difficulty ∧
     (b.setImg m).duration = b.duration ∧
     (b.setImg m).description = b.description ∧
     (b.setImg m).ingredients = b.ingredients ∧
     (b.setImg m).directions = b.directions ∧ (b.setImg m).tags = b.tags) :=
  ⟨⟨rfl, rfl, rfl, rfl, rfl, rfl, rfl, rfl⟩,
   ⟨rfl, rfl, rfl, rfl, rfl, rfl, rfl, rfl⟩,
   ⟨rfl, rfl, rfl, rfl, rfl, rfl, rfl, rfl⟩,
   ⟨rfl, rfl, rfl, rfl, rfl, rfl, rfl, rfl⟩,
   ⟨rfl, rfl, rfl, rfl, rfl, rfl, rfl, rfl⟩,
   ⟨rfl, rfl, rfl, rfl, rfl, rfl, rfl, rfl⟩,
   ⟨rfl, rfl, rfl, rfl, rfl, rfl, rfl, rfl⟩,
   ⟨rfl, rfl, rfl, rfl, rfl, rfl, rfl, rfl⟩,
   ⟨rfl, rfl, rfl, rfl, rfl, rfl, rfl, rfl⟩⟩

end RecipeApi
